import Mathlib

/-!
Shallow embedding of the mx3 sqlite wrapper (`src/sqlite/db.hpp`,
`src/sqlite/db.cpp`): the `Db` connection wrapper, its hook-registration
operations and the C trampolines it installs, and the fallible operations
`open`, `exec` and `prepare`.

Modelling conventions:
* sqlite status and reason codes are `Int` (C `int`); `0` is `SQLITE_OK`.
* A C++ exception that crosses a function boundary is modelled by
  `Except String α`: `Except.error msg` is a thrown `std::runtime_error`
  carrying `msg`, `Except.ok` a normal return.
* A `std::function` slot is an `Option`: `none` is the empty
  (default-constructed) function object, for which `operator bool` is
  false; `some f` is a callable closure.
* A hook closure itself may throw, so its result type is again `Except`.
* Native engine resources (the `sqlite3 *` handle, `sqlite3_stmt *`
  handles) are abstract identifiers (`Nat`); the set of currently
  allocated resources is a `List Nat`, grown when the engine allocates
  and shrunk (`List.erase`) when a deleter runs.
* The engine itself is external: its responses (status code, allocated
  handle, diagnostic strings) are parameters of the modelled operations.
-/

namespace Mx3Sqlite

/-- sqlite status code for success. -/
def SQLITE_OK : Int := 0

/-- sqlite reason code for a row insert. -/
def SQLITE_INSERT : Int := 18

/-- sqlite reason code for a row update. -/
def SQLITE_UPDATE : Int := 23

/-- sqlite reason code for a row delete. -/
def SQLITE_DELETE : Int := 9

/-- Open-flag bit `SQLITE_OPEN_READONLY`. -/
def SQLITE_OPEN_READONLY : Nat := 0x00000001

/-- Open-flag bit `SQLITE_OPEN_READWRITE`. -/
def SQLITE_OPEN_READWRITE : Nat := 0x00000002

/-- Open-flag bit `SQLITE_OPEN_CREATE`. -/
def SQLITE_OPEN_CREATE : Nat := 0x00000004

/-- Open-flag bit `SQLITE_OPEN_NOMUTEX`. -/
def SQLITE_OPEN_NOMUTEX : Nat := 0x00008000

/-- Open-flag bit `SQLITE_OPEN_FULLMUTEX`. -/
def SQLITE_OPEN_FULLMUTEX : Nat := 0x00010000

/-- Open-flag bit `SQLITE_OPEN_SHAREDCACHE`. -/
def SQLITE_OPEN_SHAREDCACHE : Nat := 0x00020000

/-- Open-flag bit `SQLITE_OPEN_PRIVATECACHE`. -/
def SQLITE_OPEN_PRIVATECACHE : Nat := 0x00040000

/-- The `enum class ChangeType` from `db.hpp`. -/
inductive ChangeType where
  | INSERT
  | UPDATE
  | DELETE
deriving DecidableEq, Repr

/-- Alias for `Db::UpdateHookFn = function<void(ChangeType, string, string, int64_t)>`;
the closure may throw. -/
def UpdateHookFn : Type :=
  ChangeType → String → String → Int → Except String Unit

/-- Alias for `Db::CommitHookFn = function<bool()>`; the closure may throw. -/
def CommitHookFn : Type := Unit → Except String Bool

/-- Alias for `Db::RollbackHookFn = function<void()>`; the closure may throw. -/
def RollbackHookFn : Type := Unit → Except String Unit

/-- The hook state of a `Db` object: the three `std::function` members
(`db.hpp` lines 45-47).  `none` models an empty function object. -/
structure Db where
  m_update_hook : Option UpdateHookFn
  m_commit_hook : Option CommitHookFn
  m_rollback_hook : Option RollbackHookFn

/-- Constructor `Db::Db`: the constructor stores the handle and leaves all three
`std::function` members default-constructed (empty). -/
def Db.init : Db :=
  { m_update_hook := none, m_commit_hook := none, m_rollback_hook := none }

/-- Operation `Db::update_hook`: `m_update_hook = update_fn;` (the subsequent
`sqlite3_update_hook` call installs the fixed trampoline and context
pointer, which the trampoline functions below model). -/
def Db.update_hook (db : Db) (update_fn : Option UpdateHookFn) : Db :=
  { db with m_update_hook := update_fn }

/-- Operation `Db::commit_hook`: `m_commit_hook = commit_fn;`. -/
def Db.commit_hook (db : Db) (commit_fn : Option CommitHookFn) : Db :=
  { db with m_commit_hook := commit_fn }

/-- Operation `Db::rollback_hook`: `m_rollback_hook = rollback_fn;`. -/
def Db.rollback_hook (db : Db) (rollback_fn : Option RollbackHookFn) : Db :=
  { db with m_rollback_hook := rollback_fn }

/-- The lambda registered by `Db::update_hook` (`db.cpp` lines 48-72):
recovers the `Db` from the context pointer, checks the `std::function`
for emptiness, translates the reason code through the `switch`, throws
on an unknown code, and otherwise invokes the stored closure.  The
result is what crosses back into the engine: `Except.error` is an
exception escaping the trampoline. -/
def updateHookTrampoline (db : Db) (change_type : Int)
    (db_name table_name : String) (row_id : Int) : Except String Unit :=
  match db.m_update_hook with
  | some update_hook =>
    let type : Option ChangeType :=
      if change_type = SQLITE_INSERT then some ChangeType.INSERT
      else if change_type = SQLITE_UPDATE then some ChangeType.UPDATE
      else if change_type = SQLITE_DELETE then some ChangeType.DELETE
      else none
    match type with
    | none => Except.error "Unexpected update type from sqlite"
    | some t => update_hook t db_name table_name row_id
  | none => Except.ok ()

/-- The lambda registered by `Db::commit_hook` (`db.cpp` lines 78-86):
if a closure is stored, invoke it and return `0` for `true` and `1` for
`false`; with no closure stored, return `0`.  The `Int` is the value
returned to the engine (`0` = allow the commit). -/
def commitHookTrampoline (db : Db) : Except String Int :=
  match db.m_commit_hook with
  | some commit_hook =>
    match commit_hook () with
    | Except.error e => Except.error e
    | Except.ok result => Except.ok (if result then 0 else 1)
  | none => Except.ok 0

/-- The lambda registered by `Db::rollback_hook` (`db.cpp` lines 92-98):
invoke the stored closure if there is one. -/
def rollbackHookTrampoline (db : Db) : Except String Unit :=
  match db.m_rollback_hook with
  | some rollback_hook => rollback_hook ()
  | none => Except.ok ()

/-- What `sqlite3_exec` hands back: the status code and the
`errmsg` out-parameter (which sqlite may leave null). -/
structure ExecOutcome where
  result : Int
  error_msg : Option String

/-- Operation `Db::exec` (`db.cpp` lines 111-122), as written: throws only when
`result && error_msg`, i.e. when the status is non-success AND the
engine produced an error string; inside that branch it re-tests
`error_msg` and would fall back to `"Unknown error"`. -/
def Db.exec (o : ExecOutcome) : Except String Unit :=
  if o.result ≠ 0 ∧ o.error_msg ≠ none then
    match o.error_msg with
    | some m => Except.error m
    | none => Except.error "Unknown error"
  else
    Except.ok ()

/-- The flag word `Db::open` passes to `sqlite3_open_v2`
(`db.cpp` lines 10-15). -/
def Db.openFlags : Nat :=
  SQLITE_OPEN_READWRITE |||
  SQLITE_OPEN_CREATE |||
  SQLITE_OPEN_NOMUTEX |||
  SQLITE_OPEN_PRIVATECACHE

/-- What `sqlite3_open_v2` hands back: the status code and the handle
written through the out-parameter (null when nothing was allocated). -/
structure OpenResp where
  error_code : Int
  db : Option Nat

/-- Deleter `Db::Closer::operator()` (`db.cpp` lines 106-109): `sqlite3_close_v2`
releases the handle; on a null pointer it is a harmless no-op. -/
def Db.closer (live : List Nat) (db : Option Nat) : List Nat :=
  match db with
  | some h => live.erase h
  | none => live

/-- Operation `Db::open` (`db.cpp` lines 8-25): calls `sqlite3_open_v2(path, &db,
flags, nullptr)` with `Db.openFlags`, wraps the handle in a
`unique_ptr<sqlite3, Closer>` immediately, and throws
`runtime_error{sqlite3_errstr(error_code)}` on a non-OK status — the
`unique_ptr` runs `Closer` during unwinding, so the partially-opened
handle is released before the exception surfaces.  On success the `Db`
object takes ownership.  `openv2` and `errstr` are the external engine;
`live` is the set of allocated native connection handles. -/
def Db.openDb (openv2 : String → Nat → OpenResp) (errstr : Int → String)
    (live : List Nat) (db_path : String) :
    Except String (Option Nat) × List Nat :=
  let resp := openv2 db_path Db.openFlags
  let live1 := match resp.db with
    | some h => live ++ [h]
    | none => live
  if resp.error_code ≠ SQLITE_OK then
    (Except.error (errstr resp.error_code), Db.closer live1 resp.db)
  else
    (Except.ok resp.db, live1)

/-- What `sqlite3_prepare_v2` hands back: the status code and the
statement handle written through the out-parameter (null on failure or
for whitespace-only SQL). -/
structure PrepareResp where
  error_code : Int
  stmt : Option Nat

/-- The `Stmt` object built by `Db::prepare`: `new Stmt {stmt,
this->shared_from_this()}` pairs the native statement handle with a
strong reference to the owning connection.  The connection is abstract
here (`conn : Unit` stands for the `shared_ptr<Db>`). -/
structure Stmt where
  stmt : Option Nat
  conn : Unit

/-- Modelled from the spec: `Stmt`'s destructor lives in `stmt.cpp`,
which is not under `src/`.  Per the spec's Statement lifecycle
("destroyed when the caller drops it, releasing the native statement
resource and the reference to Connection"), dropping the last
`shared_ptr<Stmt>` releases the native statement handle; releasing a
null handle releases nothing. -/
def Stmt.drop (live : List Nat) (s : Stmt) : List Nat :=
  match s.stmt with
  | some h => live.erase h
  | none => live

/-- Operation `Db::prepare` (`db.cpp` lines 124-139): calls `sqlite3_prepare_v2`,
unconditionally wraps the out-parameter handle in a
`shared_ptr<Stmt>`, then throws `runtime_error{sqlite3_errstr(code)}`
when the status is non-OK — unwinding destroys `wrapped_stmt`, whose
destructor (`Stmt.drop`) releases whatever the engine allocated — and
otherwise returns the wrapped statement.  `errstr` is the engine's
diagnostic facility; `live` is the set of allocated native statement
handles, to which the engine's allocation (if any) is first added. -/
def Db.prepare (errstr : Int → String) (live : List Nat)
    (resp : PrepareResp) : Except String Stmt × List Nat :=
  let live1 := match resp.stmt with
    | some h => live ++ [h]
    | none => live
  let wrapped_stmt : Stmt := { stmt := resp.stmt, conn := () }
  if resp.error_code ≠ SQLITE_OK then
    (Except.error (errstr resp.error_code), Stmt.drop live1 wrapped_stmt)
  else
    (Except.ok wrapped_stmt, live1)

/-! ## Helper lemmas -/

/-- Erasing a freshly appended element recovers the original list. -/
theorem erase_append_singleton (live : List Nat) (a : Nat) (ha : a ∉ live) :
    (live ++ [a]).erase a = live := by
  rw [List.erase_append_right _ ha, List.erase_cons_head, List.append_nil]

/-! ## Claims -/

/-- C1: the claim says every non-success status from `sqlite3_exec`
surfaces as a typed error and is never swallowed.  The code's guard is
`if (result && error_msg)`, so a non-success status whose `errmsg`
out-parameter is left null returns normally — the error is swallowed
and the inner `else { throw "Unknown error" }` branch is unreachable.
This theorem evaluates `Db.exec` at such a failing input (status
`SQLITE_ERROR = 1`, null message) and, for contrast, at a failing input
with a message, where the error does surface. -/
theorem exec_swallows_nonsuccess_with_null_errmsg :
    Db.exec { result := 1, error_msg := none } = Except.ok () ∧
    Db.exec { result := 1, error_msg := some "syntax error" } =
      Except.error "syntax error" := by
  exact ⟨rfl, rfl⟩

/-- C2 counterexample: a registered commit-hook closure that throws.
The trampoline result is the escaping exception itself (`isOk = false`),
not the claimed safe default deny response `Except.ok 1`: the bridge
contains no catch, so the exception propagates uncaught into the
engine's call stack. -/
theorem commit_closure_exception_escapes_counterexample :
    commitHookTrampoline
        (Db.commit_hook Db.init (some (fun _ => Except.error "hook failed"))) =
      Except.error "hook failed" ∧
    (commitHookTrampoline
        (Db.commit_hook Db.init (some (fun _ => Except.error "hook failed")))).isOk =
      false := by
  exact ⟨rfl, rfl⟩

/-- C2 (amended): for every registered hook closure (update, commit, or
rollback), an exception raised inside the closure is NOT caught by the
bridge's trampoline: it propagates uncaught out of the trampoline into
the native engine's call stack, carrying the closure's message
unchanged (for commit, the exception surfaces in place of any
allow/deny response). -/
theorem hook_closure_exception_propagates_uncaught :
    (∀ (db : Db) (f : CommitHookFn) (m : String), f () = Except.error m →
      commitHookTrampoline (Db.commit_hook db (some f)) = Except.error m) ∧
    (∀ (db : Db) (f : UpdateHookFn) (m dn tn : String) (r : Int),
      f ChangeType.INSERT dn tn r = Except.error m →
      updateHookTrampoline (Db.update_hook db (some f)) SQLITE_INSERT dn tn r =
        Except.error m) ∧
    (∀ (db : Db) (f : RollbackHookFn) (m : String), f () = Except.error m →
      rollbackHookTrampoline (Db.rollback_hook db (some f)) = Except.error m) := by
  refine ⟨?_, ?_, ?_⟩
  · intro db f m h
    simp [commitHookTrampoline, Db.commit_hook, h]
  · intro db f m dn tn r h
    simp [updateHookTrampoline, Db.update_hook, h]
  · intro db f m h
    simp [rollbackHookTrampoline, Db.rollback_hook, h]

/-- Witness for the amended C2 theorem at a concrete throwing closure of
each hook kind. -/
theorem hook_closure_exception_propagates_uncaught_witness :
    commitHookTrampoline
        (Db.commit_hook Db.init (some (fun _ => Except.error "boom"))) =
      Except.error "boom" ∧
    updateHookTrampoline
        (Db.update_hook Db.init (some (fun _ _ _ _ => Except.error "boom")))
        SQLITE_INSERT "main" "t" 1 =
      Except.error "boom" ∧
    rollbackHookTrampoline
        (Db.rollback_hook Db.init (some (fun _ => Except.error "boom"))) =
      Except.error "boom" :=
  ⟨hook_closure_exception_propagates_uncaught.1 Db.init _ "boom" rfl,
   hook_closure_exception_propagates_uncaught.2.1 Db.init _ "boom" "main" "t" 1 rfl,
   hook_closure_exception_propagates_uncaught.2.2 Db.init _ "boom" rfl⟩

/-- C3: with a closure registered, the update trampoline flags any
reason code outside {`SQLITE_INSERT`, `SQLITE_UPDATE`, `SQLITE_DELETE`}
as an internal consistency error ("Unexpected update type from sqlite")
without invoking the closure, and for each known code invokes the
closure with the correspondingly translated `ChangeType`, the database
name, the table name, and the row id. -/
theorem update_trampoline_rejects_unknown_reason_codes (db : Db)
    (f : UpdateHookFn) (c : Int) (dn tn : String) (r : Int)
    (hreg : db.m_update_hook = some f) :
    (c ≠ SQLITE_INSERT → c ≠ SQLITE_UPDATE → c ≠ SQLITE_DELETE →
      updateHookTrampoline db c dn tn r =
        Except.error "Unexpected update type from sqlite") ∧
    updateHookTrampoline db SQLITE_INSERT dn tn r = f ChangeType.INSERT dn tn r ∧
    updateHookTrampoline db SQLITE_UPDATE dn tn r = f ChangeType.UPDATE dn tn r ∧
    updateHookTrampoline db SQLITE_DELETE dn tn r = f ChangeType.DELETE dn tn r := by
  refine ⟨?_, ?_, ?_, ?_⟩
  · intro h1 h2 h3
    simp [updateHookTrampoline, hreg, h1, h2, h3]
  · simp [updateHookTrampoline, hreg]
  · simp [updateHookTrampoline, hreg, SQLITE_UPDATE, SQLITE_INSERT, SQLITE_DELETE]
  · simp [updateHookTrampoline, hreg, SQLITE_UPDATE, SQLITE_INSERT, SQLITE_DELETE]

/-- Witness for C3 at the unknown reason code `5` and at the known
insert code, with a concrete registered closure. -/
theorem update_trampoline_rejects_unknown_reason_codes_witness :
    updateHookTrampoline
        (Db.update_hook Db.init (some (fun _ _ _ _ => Except.ok ()))) 5 "main" "t" 1 =
      Except.error "Unexpected update type from sqlite" :=
  (update_trampoline_rejects_unknown_reason_codes
      (Db.update_hook Db.init (some (fun _ _ _ _ => Except.ok ())))
      (fun _ _ _ _ => Except.ok ()) 5 "main" "t" 1 rfl).1
    (by decide) (by decide) (by decide)

/-- C4: whenever the engine's prepare call returns a non-success
status (and any handle it allocated is fresh), `Db.prepare` surfaces a
`PrepareFailed` error carrying the engine's message
(`sqlite3_errstr(error_code)`), returns no `Stmt` to the caller, and
the set of allocated statement resources afterwards equals the set
before the call: the `shared_ptr<Stmt>` built before the throw is
destroyed during unwinding and its destructor releases whatever the
engine allocated. -/
theorem prepare_failure_surfaces_error_without_leak (errstr : Int → String)
    (live : List Nat) (resp : PrepareResp)
    (hfail : resp.error_code ≠ SQLITE_OK)
    (hfresh : ∀ h, resp.stmt = some h → h ∉ live) :
    (Db.prepare errstr live resp).1 = Except.error (errstr resp.error_code) ∧
    (Db.prepare errstr live resp).2 = live := by
  unfold Db.prepare
  simp only [if_pos hfail]
  refine ⟨trivial, ?_⟩
  match hstmt : resp.stmt with
  | none => simp [Stmt.drop]
  | some h =>
    simp only [Stmt.drop]
    exact erase_append_singleton live h (hfresh h hstmt)

/-- Witness for C4: a failing prepare response (status `SQLITE_ERROR =
1`) whose allocated handle `7` is fresh for the empty resource set. -/
theorem prepare_failure_surfaces_error_without_leak_witness :
    (Db.prepare (fun _ => "incomplete input") []
        { error_code := 1, stmt := some 7 }).1 =
      Except.error "incomplete input" ∧
    (Db.prepare (fun _ => "incomplete input") []
        { error_code := 1, stmt := some 7 }).2 = ([] : List Nat) :=
  prepare_failure_surfaces_error_without_leak (fun _ => "incomplete input") []
    { error_code := 1, stmt := some 7 } (by decide)
    (fun h hh => by simp at hh; simp [hh])

/-- C5: whenever the engine's `sqlite3_open_v2` call returns a
non-success status (and any partially-opened handle it produced is
fresh), `Db.openDb` surfaces an `OpenFailed` error carrying the
engine's diagnostic string (`sqlite3_errstr(error_code)`), produces no
connection, and the set of allocated native connection resources
afterwards equals the set before: the `unique_ptr`'s `Closer` runs
`sqlite3_close_v2` during unwinding, before the error surfaces. -/
theorem open_failure_surfaces_error_and_releases
    (openv2 : String → Nat → OpenResp) (errstr : Int → String)
    (live : List Nat) (db_path : String)
    (hfail : (openv2 db_path Db.openFlags).error_code ≠ SQLITE_OK)
    (hfresh : ∀ h, (openv2 db_path Db.openFlags).db = some h → h ∉ live) :
    (Db.openDb openv2 errstr live db_path).1 =
      Except.error (errstr (openv2 db_path Db.openFlags).error_code) ∧
    (Db.openDb openv2 errstr live db_path).2 = live := by
  unfold Db.openDb
  simp only [if_pos hfail]
  refine ⟨trivial, ?_⟩
  match hdb : (openv2 db_path Db.openFlags).db with
  | none => simp [Db.closer]
  | some h =>
    simp only [Db.closer]
    exact erase_append_singleton live h (hfresh h hdb)

/-- Witness for C5: an engine whose open call fails with status
`SQLITE_CANTOPEN = 14` after allocating handle `3`, starting from the
empty resource set. -/
theorem open_failure_surfaces_error_and_releases_witness :
    (Db.openDb (fun _ _ => { error_code := 14, db := some 3 })
        (fun _ => "unable to open database file") [] "/nope/db").1 =
      Except.error "unable to open database file" ∧
    (Db.openDb (fun _ _ => { error_code := 14, db := some 3 })
        (fun _ => "unable to open database file") [] "/nope/db").2 =
      ([] : List Nat) :=
  open_failure_surfaces_error_and_releases
    (fun _ _ => { error_code := 14, db := some 3 })
    (fun _ => "unable to open database file") [] "/nope/db" (by decide)
    (fun h hh => by simp at hh; simp [hh])

/-- C6: with a commit-hook closure registered that returns normally,
the commit trampoline hands the engine `0` (allow) exactly when the
closure returned `true`, and `1` (non-zero: deny, forcing a rollback)
exactly when it returned `false`. -/
theorem commit_trampoline_allow_iff_closure_true (db : Db)
    (f : CommitHookFn) (b : Bool) (hres : f () = Except.ok b) :
    commitHookTrampoline (Db.commit_hook db (some f)) =
      Except.ok (if b then 0 else 1) ∧
    (commitHookTrampoline (Db.commit_hook db (some f)) = Except.ok 0 ↔
      b = true) ∧
    (commitHookTrampoline (Db.commit_hook db (some f)) = Except.ok 1 ↔
      b = false) := by
  refine ⟨?_, ?_, ?_⟩ <;>
    cases b <;> simp [commitHookTrampoline, Db.commit_hook, hres]

/-- Witness for C6 at concrete closures returning `true` and `false`. -/
theorem commit_trampoline_allow_iff_closure_true_witness :
    commitHookTrampoline
        (Db.commit_hook Db.init (some (fun _ => Except.ok true))) =
      Except.ok 0 ∧
    commitHookTrampoline
        (Db.commit_hook Db.init (some (fun _ => Except.ok false))) =
      Except.ok 1 :=
  ⟨((commit_trampoline_allow_iff_closure_true Db.init
      (fun _ => Except.ok true) true rfl).2.1).mpr rfl,
   ((commit_trampoline_allow_iff_closure_true Db.init
      (fun _ => Except.ok false) false rfl).2.2).mpr rfl⟩

/-- C7: on a freshly constructed `Db` (no closure registered for any
hook kind), each trampoline applies the safe default when the engine
invokes it: the update trampoline does nothing (for any reason code),
the commit trampoline returns `0` (allow), and the rollback trampoline
does nothing. -/
theorem unregistered_hooks_apply_safe_defaults (c : Int) (dn tn : String)
    (r : Int) :
    updateHookTrampoline Db.init c dn tn r = Except.ok () ∧
    commitHookTrampoline Db.init = Except.ok 0 ∧
    rollbackHookTrampoline Db.init = Except.ok () :=
  ⟨rfl, rfl, rfl⟩

/-- C8: for each hook kind, registering a second closure replaces the
first: the stored hook state afterwards is exactly the most recent
closure (at most one per kind, by the shape of the state), and each
trampoline behaves identically to a connection on which only the most
recent closure was ever registered. -/
theorem hook_reregistration_replaces (db : Db)
    (f g : UpdateHookFn) (fc gc : CommitHookFn) (fr gr : RollbackHookFn)
    (c : Int) (dn tn : String) (r : Int) :
    (Db.update_hook (Db.update_hook db (some f)) (some g)).m_update_hook =
      some g ∧
    updateHookTrampoline (Db.update_hook (Db.update_hook db (some f)) (some g))
        c dn tn r =
      updateHookTrampoline (Db.update_hook db (some g)) c dn tn r ∧
    (Db.commit_hook (Db.commit_hook db (some fc)) (some gc)).m_commit_hook =
      some gc ∧
    commitHookTrampoline (Db.commit_hook (Db.commit_hook db (some fc)) (some gc)) =
      commitHookTrampoline (Db.commit_hook db (some gc)) ∧
    (Db.rollback_hook (Db.rollback_hook db (some fr)) (some gr)).m_rollback_hook =
      some gr ∧
    rollbackHookTrampoline
        (Db.rollback_hook (Db.rollback_hook db (some fr)) (some gr)) =
      rollbackHookTrampoline (Db.rollback_hook db (some gr)) :=
  ⟨rfl, rfl, rfl, rfl, rfl, rfl⟩

/-- C9: the flag word `Db::open` passes to the engine's open call
enables exactly the four options of the open-flags contract —
read-write (bit 1), create-if-missing (bit 2), no-shared-mutex (bit
15), private cache (bit 18) — and none of the competing options
(read-only, full-mutex, shared-cache).  The final conjunct probes
`Db.openDb` with an engine that echoes the flag word it received,
showing the open call is made with exactly that word. -/
theorem open_passes_exactly_four_flag_options :
    Db.openFlags = 2 ^ 1 + 2 ^ 2 + 2 ^ 15 + 2 ^ 18 ∧
    Db.openFlags &&& SQLITE_OPEN_READWRITE = SQLITE_OPEN_READWRITE ∧
    Db.openFlags &&& SQLITE_OPEN_CREATE = SQLITE_OPEN_CREATE ∧
    Db.openFlags &&& SQLITE_OPEN_NOMUTEX = SQLITE_OPEN_NOMUTEX ∧
    Db.openFlags &&& SQLITE_OPEN_PRIVATECACHE = SQLITE_OPEN_PRIVATECACHE ∧
    Db.openFlags &&& SQLITE_OPEN_READONLY = 0 ∧
    Db.openFlags &&& SQLITE_OPEN_FULLMUTEX = 0 ∧
    Db.openFlags &&& SQLITE_OPEN_SHAREDCACHE = 0 ∧
    (Db.openDb (fun _ flags => { error_code := Int.ofNat flags, db := none })
        (fun code => toString code) [] "any.db").1 =
      Except.error (toString (Int.ofNat (2 ^ 1 + 2 ^ 2 + 2 ^ 15 + 2 ^ 18))) :=
  ⟨rfl, rfl, rfl, rfl, rfl, rfl, rfl, rfl, rfl⟩

/-- C10: registering an empty (default-constructed) function object
leaves the hook slot empty, and the trampolines' truthiness guard
(`if (db->m_update_hook)` etc.) then short-circuits: every engine
invocation behaves exactly as on a freshly constructed connection with
no closure registered — update and rollback do nothing, commit returns
allow — instead of invoking the empty function object. -/
theorem empty_closure_behaves_as_unregistered (db : Db) (c : Int)
    (dn tn : String) (r : Int) :
    updateHookTrampoline (Db.update_hook db none) c dn tn r =
      updateHookTrampoline Db.init c dn tn r ∧
    commitHookTrampoline (Db.commit_hook db none) =
      commitHookTrampoline Db.init ∧
    rollbackHookTrampoline (Db.rollback_hook db none) =
      rollbackHookTrampoline Db.init ∧
    updateHookTrampoline (Db.update_hook db none) c dn tn r = Except.ok () ∧
    commitHookTrampoline (Db.commit_hook db none) = Except.ok 0 ∧
    rollbackHookTrampoline (Db.rollback_hook db none) = Except.ok () :=
  ⟨rfl, rfl, rfl, rfl, rfl, rfl⟩

end Mx3Sqlite
